import Mathlib

/-!
Verification of the blogicum blog application (django_sprint4).

The application's logic lives in three modules: `blog/views.py` (request
handlers), `blog/forms.py` (form field selections) and `blog/urls.py`
(routing).  We embed the data model (posts, comments, categories, users),
the querysets and the dispatch/mutation logic of each view as executable
Lean functions.  Times are modelled abstractly: a `DateTime` is a pair of a
date index and a time-of-day index, both naturals, ordered lexicographically;
the Django lookup `pub_date__lte=now` is the lexicographic order, while
`pub_date__date__lte=now` compares the date components only.

A request's identity is `Option User`: `none` stands for Django's
`AnonymousUser` (whose `username` attribute is the empty string), `some u`
for an authenticated user.  `LoginRequiredMixin` redirects `none` to the
login page; views overriding `dispatch` run their own checks first, exactly
as the Python method resolution order does.
-/

/-- A timestamp: `date` is the calendar-date component, `time` the
time-of-day component.  `timezone.now()` is passed in as a parameter. -/
structure DateTime where
  date : Nat
  time : Nat
deriving DecidableEq, Repr

/-- Full timestamp order, Django lookup `__lte` between datetimes. -/
def dtLe (a b : DateTime) : Bool :=
  Nat.blt a.date b.date || (a.date == b.date && Nat.ble a.time b.time)

/-- Strict timestamp order, the comparison `post.pub_date > timezone.now()`
in `PostDetailView.dispatch` is `dtLt now post.pub_date`. -/
def dtLt (a b : DateTime) : Bool :=
  Nat.blt a.date b.date || (a.date == b.date && Nat.blt a.time b.time)

/-- Django lookup `pub_date__date__lte=timezone.now()`: compares the date
components only. -/
def dateLe (a b : DateTime) : Bool :=
  Nat.ble a.date b.date

/-- A row of the auth user table. -/
structure User where
  id : Nat
  username : String
deriving DecidableEq, Repr

/-- A row of the category table (`blog/models.py`): name grouping with its
own `is_published` flag and a `slug` used in category URLs. -/
structure Category where
  id : Nat
  slug : String
  is_published : Bool
deriving DecidableEq, Repr

/-- A row of the post table.  The `category` foreign key is embedded, so
`category__is_published` and `category__slug` lookups read through it. -/
structure Post where
  id : Nat
  title : String
  author : User
  category : Category
  pub_date : DateTime
  is_published : Bool
deriving DecidableEq, Repr

/-- A row of the comment table: text attached to a post and an author. -/
structure Comment where
  id : Nat
  text : String
  author : User
  postId : Nat
deriving DecidableEq, Repr

/-- The database the ORM queries: one list per table. -/
structure Database where
  users : List User
  categories : List Category
  posts : List Post
  comments : List Comment
deriving DecidableEq, Repr

/-- `get_object_or_404(Post, pk=pk)` as a lookup: `none` means Http404. -/
def findPost (db : Database) (pk : Nat) : Option Post :=
  db.posts.find? (fun p => p.id == pk)

/-- `get_object_or_404(Comment, pk=comment_id)` as a lookup. -/
def findComment (db : Database) (cid : Nat) : Option Comment :=
  db.comments.find? (fun c => c.id == cid)

/-- `post.comments` reverse relation: the comments whose FK is the post. -/
def commentsOf (db : Database) (pk : Nat) : List Comment :=
  db.comments.filter (fun c => c.postId == pk)

/-- The `annotate(comment_count=Count('comments'))` value of a post; it is
only displayed by templates and never filtered or ordered on. -/
def commentCount (db : Database) (p : Post) : Nat :=
  (commentsOf db p.id).length

/-- Insert a post into a list sorted by descending `pub_date`
(`order_by('-pub_date')`). -/
def insertDesc (p : Post) : List Post → List Post
  | [] => [p]
  | q :: qs =>
    if dtLt p.pub_date q.pub_date then q :: insertDesc p qs
    else p :: q :: qs

/-- `order_by('-pub_date')` on a queryset, as an insertion sort. -/
def sortByPubDateDesc : List Post → List Post
  | [] => []
  | p :: ps => insertDesc p (sortByPubDateDesc ps)

/-- The username Django reports for a request identity:
`AnonymousUser.username` is the empty string. -/
def requesterUsername : Option User → String
  | none => ""
  | some u => u.username

/-- `index` queryset (`views.py` lines 17-21): posts with
`pub_date__date__lte=now`, `is_published=True`,
`category__is_published=True`, ordered by descending `pub_date`. -/
def indexQueryset (db : Database) (now : DateTime) : List Post :=
  sortByPubDateDesc (db.posts.filter
    (fun p => dateLe p.pub_date now && p.is_published && p.category.is_published))

/-- `category_posts` queryset (`views.py` lines 52-57): posts with
`category__slug=category_slug`, `is_published=True`,
`pub_date__date__lte=now`, ordered by descending `pub_date`. -/
def categoryQueryset (db : Database) (slug : String) (now : DateTime) : List Post :=
  sortByPubDateDesc (db.posts.filter
    (fun p => p.category.slug == slug && p.is_published && dateLe p.pub_date now))

/-- `ProfileListView.get_queryset` (`views.py` lines 82-90): when the
requester's username equals the URL username, all of that author's posts;
otherwise only those with `pub_date__lte=now`.  Note the second branch has
no `is_published` filter. -/
def profileQueryset (db : Database) (requester : String) (username : String)
    (now : DateTime) : List Post :=
  if requester == username then
    sortByPubDateDesc (db.posts.filter (fun p => p.author.username == username))
  else
    sortByPubDateDesc (db.posts.filter
      (fun p => p.author.username == username && dtLe p.pub_date now))

/-- `Paginator(post_list, 10).num_pages`: ceiling division, at least 1. -/
def numPages (len perPage : Nat) : Nat :=
  max 1 ((len + perPage - 1) / perPage)

/-- The page number `Paginator.get_page` settles on: a missing or
non-integer page parameter gives page 1; a page below 1 or above
`num_pages` gives the last page. -/
def pageNumber (len perPage : Nat) (pageParam : Option Nat) : Nat :=
  match pageParam with
  | none => 1
  | some k => if k < 1 || numPages len perPage < k then numPages len perPage else k

/-- `Paginator.get_page(page_number)`: the settled page's slice of at most
`perPage` items. -/
def paginatorGetPage (l : List Post) (perPage : Nat) (pageParam : Option Nat) :
    List Post :=
  (l.drop ((pageNumber l.length perPage pageParam - 1) * perPage)).take perPage

/-- `ListView` pagination (`paginate_by = 10` on `ProfileListView`): a page
number out of range raises Http404 (`none`); page 1 is always valid. -/
def listViewPaginate (l : List Post) (perPage : Nat) (pageParam : Option Nat) :
    Option (List Post) :=
  if pageParam.getD 1 < 1 || numPages l.length perPage < pageParam.getD 1 then none
  else some ((l.drop ((pageParam.getD 1 - 1) * perPage)).take perPage)

/-- `index` (`views.py` lines 16-26): filtered queryset paginated by 10. -/
def indexView (db : Database) (now : DateTime) (pageParam : Option Nat) :
    List Post :=
  paginatorGetPage (indexQueryset db now) 10 pageParam

/-- Outcome of a `PostDetailView` request. -/
inductive DetailResult where
  | notFound
  | loginRedirect
  | served (post : Post) (comments : List Comment)
deriving DecidableEq, Repr

/-- The condition under which `PostDetailView.dispatch` does NOT raise 404
for a non-author: published, category published, `pub_date` not in the
future (full-timestamp comparison). -/
def publiclyVisible (post : Post) (now : DateTime) : Bool :=
  post.is_published && post.category.is_published && !(dtLt now post.pub_date)

/-- `PostDetailView` (`views.py` lines 29-48).  `dispatch` first fetches the
post (404 if absent), raises 404 when the requester is not the author and
the post is not publicly visible, then delegates to `LoginRequiredMixin`,
which redirects an anonymous requester to the login page; an authenticated
requester is served the detail page with the post's comments. -/
def postDetailDispatch (db : Database) (requester : Option User) (pk : Nat)
    (now : DateTime) : DetailResult :=
  match findPost db pk with
  | none => .notFound
  | some post =>
    if requester ≠ some post.author ∧ publiclyVisible post now = false then
      .notFound
    else
      match requester with
      | none => .loginRedirect
      | some _ => .served post (commentsOf db pk)

/-- `category_posts` (`views.py` lines 51-69): `get_object_or_404` on the
categories filtered to `is_published=True` by slug; on success the page
renders the paginated post list and the category. -/
def categoryPostsView (db : Database) (slug : String) (now : DateTime)
    (pageParam : Option Nat) : Option (List Post × Category) :=
  let post_list := categoryQueryset db slug now
  match db.categories.find? (fun c => c.is_published && c.slug == slug) with
  | none => none
  | some category => some (paginatorGetPage post_list 10 pageParam, category)

/-- `ProfileListView` (`views.py` lines 72-95): `dispatch` 404s when no user
has the URL username; the queryset depends on whether the requester's
username matches; results are paginated by 10. -/
def profileView (db : Database) (requester : Option User) (username : String)
    (now : DateTime) (pageParam : Option Nat) : Option (List Post) :=
  match db.users.find? (fun usr => usr.username == username) with
  | none => none
  | some _ =>
    listViewPaginate (profileQueryset db (requesterUsername requester) username now)
      10 pageParam

/-- The data a `PostForm` submission carries.  `PostForm.Meta` excludes
`author` (`forms.py` line 10), so no author field exists on the form. -/
structure PostFormData where
  title : String
  category : Category
  pub_date : DateTime
  is_published : Bool
deriving DecidableEq, Repr

/-- The data a `CommentForm` submission carries: `fields = ('text',)`
(`forms.py` line 17), so only the text. -/
structure CommentFormData where
  text : String
deriving DecidableEq, Repr

/-- Outcome of a mutating view's request. -/
inductive MutResult where
  | notFound
  | loginRedirect
  | redirectToPostDetail (pk : Nat)
  | proceeded
deriving DecidableEq, Repr

/-- The post saved by `PostCreateView.form_valid` (`views.py` lines
132-135): the form's instance carries the submitted fields (no author field
exists on the form), then `form.instance.author = self.request.user` and
`form.instance.is_published = True` overwrite the author and the submitted
visibility flag before saving. -/
def postCreateInstance (u : User) (form : PostFormData) (newId : Nat) : Post :=
  let inst : Post :=
    { id := newId, title := form.title, author := u,
      category := form.category, pub_date := form.pub_date,
      is_published := form.is_published }
  { inst with author := u, is_published := true }

/-- `PostCreateView` (`views.py` lines 127-142): `LoginRequiredMixin`
redirects an anonymous requester; otherwise the validated form is saved
with the author and visibility overridden by `form_valid`. -/
def postCreateView (db : Database) (requester : Option User)
    (form : PostFormData) (newId : Nat) : MutResult × Database :=
  match requester with
  | none => (.loginRedirect, db)
  | some u =>
    (.proceeded, { db with posts := db.posts ++ [postCreateInstance u form newId] })

/-- Applying a bound `PostForm` to an existing post on update: every model
field except the excluded `author` comes from the submission. -/
def applyPostForm (form : PostFormData) (p : Post) : Post :=
  { p with title := form.title, category := form.category,
           pub_date := form.pub_date, is_published := form.is_published }

/-- `PostUpdateView` (`views.py` lines 145-161): `dispatch` fetches the post
(404 if absent), redirects a non-author requester to the post's detail
page, then delegates to `LoginRequiredMixin`; the author's submission
updates the post's form fields. -/
def postUpdateView (db : Database) (requester : Option User) (pk : Nat)
    (form : PostFormData) : MutResult × Database :=
  match findPost db pk with
  | none => (.notFound, db)
  | some post_ =>
    if requester ≠ some post_.author then
      (.redirectToPostDetail pk, db)
    else
      match requester with
      | none => (.loginRedirect, db)
      | some _ =>
        (.proceeded,
          { db with
            posts := db.posts.map fun p =>
              if p.id == pk then applyPostForm form p else p })

/-- `PostDeleteView` (`views.py` lines 164-186): same ownership gate as
update; the author's request deletes the post row. -/
def postDeleteView (db : Database) (requester : Option User) (pk : Nat) :
    MutResult × Database :=
  match findPost db pk with
  | none => (.notFound, db)
  | some inst =>
    if requester ≠ some inst.author then
      (.redirectToPostDetail pk, db)
    else
      match requester with
      | none => (.loginRedirect, db)
      | some _ =>
        (.proceeded, { db with posts := db.posts.filter (fun p => !(p.id == pk)) })

/-- `CommentCreateView` (`views.py` lines 189-206): `dispatch` fetches the
post named by the URL `pk` (404 if absent) before the login check;
`form_valid` sets the comment's author to the requester and its post to the
fetched post. -/
def commentCreateView (db : Database) (requester : Option User) (pk : Nat)
    (form : CommentFormData) (newId : Nat) : MutResult × Database :=
  match findPost db pk with
  | none => (.notFound, db)
  | some post_ =>
    match requester with
    | none => (.loginRedirect, db)
    | some u =>
      let c : Comment := { id := newId, text := form.text, author := u,
                           postId := post_.id }
      (.proceeded, { db with comments := db.comments ++ [c] })

/-- `CommentUpdateView` (`views.py` lines 209-223): the target comment is
fetched by the `comment_id` URL parameter alone (`pk_url_kwarg =
'comment_id'`); a non-author requester is redirected to the detail page of
the URL's `pk` (never compared with the comment's own post); the author's
submission updates the comment's `text`. -/
def commentUpdateView (db : Database) (requester : Option User) (pk : Nat)
    (comment_id : Nat) (form : CommentFormData) : MutResult × Database :=
  match findComment db comment_id with
  | none => (.notFound, db)
  | some inst =>
    if requester ≠ some inst.author then
      (.redirectToPostDetail pk, db)
    else
      match requester with
      | none => (.loginRedirect, db)
      | some _ =>
        (.proceeded,
          { db with
            comments := db.comments.map fun c =>
              if c.id == comment_id then { c with text := form.text } else c })

/-- `CommentDeleteView` (`views.py` lines 226-237): same gate as comment
update; the author's request deletes the comment row fetched by
`comment_id`. -/
def commentDeleteView (db : Database) (requester : Option User) (pk : Nat)
    (comment_id : Nat) : MutResult × Database :=
  match findComment db comment_id with
  | none => (.notFound, db)
  | some inst =>
    if requester ≠ some inst.author then
      (.redirectToPostDetail pk, db)
    else
      match requester with
      | none => (.loginRedirect, db)
      | some _ =>
        (.proceeded,
          { db with comments := db.comments.filter (fun c => !(c.id == comment_id)) })

/-! ### Concrete fixtures used by witnesses and counterexamples -/

/-- A registered user, author of the example posts. -/
def alice : User := { id := 1, username := "alice" }

/-- A second registered user, not an author of any post. -/
def bob : User := { id := 2, username := "bob" }

/-- A published category. -/
def catPublic : Category := { id := 1, slug := "tech", is_published := true }

/-- An unpublished category. -/
def catHidden : Category := { id := 2, slug := "life", is_published := false }

/-- The request time used by the fixtures. -/
def exNow : DateTime := { date := 100, time := 50 }

/-- A post that is published, in a published category, dated in the past. -/
def postVisible : Post :=
  { id := 1, title := "hello", author := alice, category := catPublic,
    pub_date := { date := 90, time := 0 }, is_published := true }

/-- An unpublished post by the same author, dated in the past. -/
def postDraft : Post :=
  { id := 2, title := "draft", author := alice, category := catPublic,
    pub_date := { date := 91, time := 0 }, is_published := false }

/-- A comment by `bob` on `postVisible`. -/
def exComment : Comment := { id := 1, text := "nice", author := bob, postId := 1 }

/-- The example database. -/
def exDb : Database :=
  { users := [alice, bob], categories := [catPublic, catHidden],
    posts := [postVisible, postDraft], comments := [exComment] }

/-- An example post-form submission. -/
def exForm : PostFormData :=
  { title := "edited", category := catPublic,
    pub_date := { date := 95, time := 0 }, is_published := true }

/-- An example comment-form submission. -/
def exCForm : CommentFormData := { text := "edited comment" }

/-! ### Helper lemmas about sorting and pagination -/

theorem mem_insertDesc {p q : Post} {l : List Post} :
    q ∈ insertDesc p l ↔ q = p ∨ q ∈ l := by
  induction l with
  | nil => simp [insertDesc]
  | cons x xs ih =>
    rw [insertDesc]
    split
    · simp only [List.mem_cons, ih]
      tauto
    · simp only [List.mem_cons]

theorem mem_sortByPubDateDesc {q : Post} {l : List Post} :
    q ∈ sortByPubDateDesc l ↔ q ∈ l := by
  induction l with
  | nil => simp [sortByPubDateDesc]
  | cons x xs ih => simp [sortByPubDateDesc, mem_insertDesc, ih]

theorem length_insertDesc (p : Post) (l : List Post) :
    (insertDesc p l).length = l.length + 1 := by
  induction l with
  | nil => rfl
  | cons x xs ih =>
    rw [insertDesc]
    split
    · simp [ih]
    · simp

theorem length_sortByPubDateDesc (l : List Post) :
    (sortByPubDateDesc l).length = l.length := by
  induction l with
  | nil => rfl
  | cons x xs ih => simp [sortByPubDateDesc, length_insertDesc, ih]

theorem length_paginatorGetPage (l : List Post) (perPage : Nat)
    (pageParam : Option Nat) :
    (paginatorGetPage l perPage pageParam).length ≤ perPage := by
  rw [paginatorGetPage]
  simp only [List.length_take]
  omega

theorem length_listViewPaginate (l : List Post) (perPage : Nat)
    (pageParam : Option Nat) (pg : List Post)
    (h : listViewPaginate l perPage pageParam = some pg) :
    pg.length ≤ perPage := by
  rw [listViewPaginate] at h
  split at h
  · exact absurd h (by simp)
  · obtain rfl : _ = pg := Option.some.inj h
    simp only [List.length_take]
    omega

/-! ### Claims -/

/-- C1, counterexample to the claim as stated: `postVisible` is publicly
visible (published, published category, past date) and the requester is not
its author, so the claim requires the detail page to be served; but for an
anonymous requester `LoginRequiredMixin` redirects to the login page
instead, and the result is neither a served page nor a 404. -/
theorem c1_counterexample :
    findPost exDb 1 = some postVisible ∧
    publiclyVisible postVisible exNow = true ∧
    postDetailDispatch exDb none 1 exNow = DetailResult.loginRedirect ∧
    postDetailDispatch exDb none 1 exNow
      ≠ DetailResult.served postVisible (commentsOf exDb 1) ∧
    postDetailDispatch exDb none 1 exNow ≠ DetailResult.notFound := by
  decide

/-- C1 (amended): for an AUTHENTICATED requester, the detail page for an
existing post is served exactly when the requester is the post's author, or
else the post is published, its category is published and its publication
date is not in the future; in every other case the request fails with 404.
(An anonymous requester is never served: the login-required redirect
intervenes even for a publicly visible post.) -/
theorem c1_detail_access (db : Database) (u : User) (pk : Nat) (now : DateTime)
    (post : Post) (h : findPost db pk = some post) :
    (postDetailDispatch db (some u) pk now
        = DetailResult.served post (commentsOf db pk)
      ↔ (u = post.author ∨ publiclyVisible post now = true)) ∧
    (¬(u = post.author ∨ publiclyVisible post now = true) →
      postDetailDispatch db (some u) pk now = DetailResult.notFound) := by
  by_cases ha : u = post.author
  · simp [postDetailDispatch, h, ha]
  · by_cases hv : publiclyVisible post now = true
    · simp [postDetailDispatch, h, ha, hv]
    · simp [postDetailDispatch, h, ha, hv, Bool.not_eq_true]

/-- Witness for `c1_detail_access`: `bob` requests the unpublished fixture
post authored by `alice` and receives a 404. -/
theorem c1_detail_access_witness :
    postDetailDispatch exDb (some bob) 2 exNow = DetailResult.notFound :=
  (c1_detail_access exDb bob 2 exNow postDraft (by decide)).2 (by decide)

/-- C2, counterexample to the claim as stated: `postDraft` is unpublished
(`is_published = false`) and past-dated, yet appears in the profile listing
of `alice` as seen by the distinct requester `bob`, because
`ProfileListView.get_queryset`'s non-owner branch filters only on the
publication date, not on `is_published`. -/
theorem c2_counterexample :
    "bob" ≠ "alice" ∧
    postDraft.is_published = false ∧
    dtLe postDraft.pub_date exNow = true ∧
    postDraft ∈ profileQueryset exDb "bob" "alice" exNow := by
  decide

/-- C2 (amended): the index and category listings apply both the date
filter (publication date on or before today) and the `is_published`
filter; the profile listing viewed by a non-owner applies only the author
filter and the full-timestamp date filter, with no visibility filter, so
unpublished past-dated posts do appear there (see `c2_counterexample`). -/
theorem c2_listing_filters (db : Database) (now : DateTime) (slug : String)
    (requester username : String) (p : Post) :
    (p ∈ indexQueryset db now →
      p.is_published = true ∧ p.category.is_published = true ∧
      dateLe p.pub_date now = true) ∧
    (p ∈ categoryQueryset db slug now →
      p.is_published = true ∧ dateLe p.pub_date now = true ∧
      p.category.slug = slug) ∧
    (requester ≠ username → p ∈ profileQueryset db requester username now →
      p.author.username = username ∧ dtLe p.pub_date now = true) := by
  refine ⟨?_, ?_, ?_⟩
  · intro hp
    rw [indexQueryset, mem_sortByPubDateDesc, List.mem_filter] at hp
    have hf := hp.2
    simp only [Bool.and_eq_true] at hf
    exact ⟨hf.1.2, hf.2, hf.1.1⟩
  · intro hp
    rw [categoryQueryset, mem_sortByPubDateDesc, List.mem_filter] at hp
    have hf := hp.2
    simp only [Bool.and_eq_true, beq_iff_eq] at hf
    exact ⟨hf.1.2, hf.2, hf.1.1⟩
  · intro hne hp
    rw [profileQueryset] at hp
    rw [if_neg (by simpa using hne)] at hp
    rw [mem_sortByPubDateDesc, List.mem_filter] at hp
    have hf := hp.2
    simp only [Bool.and_eq_true, beq_iff_eq] at hf
    exact hf

/-- Witness for `c2_listing_filters`: the visible fixture post in the
non-owner profile listing satisfies the author and date filters. -/
theorem c2_listing_filters_witness :
    postVisible.author.username = "alice" ∧ dtLe postVisible.pub_date exNow = true :=
  (c2_listing_filters exDb exNow "tech" "bob" "alice" postVisible).2.2
    (by decide) (by decide)

/-- C3 (confirmed): for all four mutating endpoints, a requester who is not
the stored author gets a redirect to the detail page of the URL's post pk
and the database is unchanged; when the requester is the author the
operation proceeds. -/
theorem c3_ownership_gate (db : Database) (u : User) (pk cid : Nat)
    (pform : PostFormData) (cform : CommentFormData) (post : Post) (c : Comment)
    (hp : findPost db pk = some post) (hc : findComment db cid = some c) :
    (u ≠ post.author →
      postUpdateView db (some u) pk pform = (.redirectToPostDetail pk, db) ∧
      postDeleteView db (some u) pk = (.redirectToPostDetail pk, db)) ∧
    (u = post.author →
      (postUpdateView db (some u) pk pform).1 = .proceeded ∧
      (postDeleteView db (some u) pk).1 = .proceeded) ∧
    (u ≠ c.author →
      commentUpdateView db (some u) pk cid cform = (.redirectToPostDetail pk, db) ∧
      commentDeleteView db (some u) pk cid = (.redirectToPostDetail pk, db)) ∧
    (u = c.author →
      (commentUpdateView db (some u) pk cid cform).1 = .proceeded ∧
      (commentDeleteView db (some u) pk cid).1 = .proceeded) := by
  refine ⟨fun hne => ?_, fun he => ?_, fun hne => ?_, fun he => ?_⟩
  · simp [postUpdateView, postDeleteView, hp, hne]
  · simp [postUpdateView, postDeleteView, hp, he]
  · simp [commentUpdateView, commentDeleteView, hc, hne]
  · simp [commentUpdateView, commentDeleteView, hc, he]

/-- Witness for `c3_ownership_gate`: `bob` is redirected away from editing
`alice`'s post, and proceeds on his own comment. -/
theorem c3_ownership_gate_witness :
    (postUpdateView exDb (some bob) 1 exForm
        = (.redirectToPostDetail 1, exDb) ∧
      postDeleteView exDb (some bob) 1 = (.redirectToPostDetail 1, exDb)) ∧
    ((commentUpdateView exDb (some bob) 1 1 exCForm).1 = .proceeded ∧
      (commentDeleteView exDb (some bob) 1 1).1 = .proceeded) :=
  ⟨(c3_ownership_gate exDb bob 1 1 exForm exCForm postVisible exComment
      (by decide) (by decide)).1 (by decide),
   (c3_ownership_gate exDb bob 1 1 exForm exCForm postVisible exComment
      (by decide) (by decide)).2.2.2 (by decide)⟩

/-- C4 (confirmed): creating a post or a comment requires an authenticated
requester (an anonymous one is redirected to login with the database
unchanged), and the author stored on the created object is the requester,
whatever the submitted form data carries. -/
theorem c4_creation_author (db : Database) (u : User) (pk nid : Nat)
    (pform : PostFormData) (cform : CommentFormData) (post : Post)
    (h : findPost db pk = some post) :
    postCreateView db none pform nid = (.loginRedirect, db) ∧
    commentCreateView db none pk cform nid = (.loginRedirect, db) ∧
    ((postCreateView db (some u) pform nid).2.posts
        = db.posts ++ [postCreateInstance u pform nid] ∧
      (postCreateInstance u pform nid).author = u) ∧
    ((commentCreateView db (some u) pk cform nid).2.comments
        = db.comments ++ [{ id := nid, text := cform.text, author := u,
                            postId := post.id }] ∧
      ({ id := nid, text := cform.text, author := u,
         postId := post.id } : Comment).author = u) := by
  refine ⟨rfl, ?_, ⟨rfl, rfl⟩, ?_, rfl⟩
  · simp [commentCreateView, h]
  · simp [commentCreateView, h]

/-- Witness for `c4_creation_author`: creation against the fixture database
and its first post. -/
theorem c4_creation_author_witness :
    commentCreateView exDb none 1 exCForm 7 = (.loginRedirect, exDb) :=
  (c4_creation_author exDb bob 1 7 exForm exCForm postVisible (by decide)).2.1

/-- C5 (confirmed): the profile listing for username U contains exactly the
posts authored by U when the requester's username is U, and exactly the
posts authored by U whose publication date is not after now otherwise. -/
theorem c5_profile_listing (db : Database) (requester username : String)
    (now : DateTime) (p : Post) :
    (requester = username →
      (p ∈ profileQueryset db requester username now ↔
        p ∈ db.posts ∧ p.author.username = username)) ∧
    (requester ≠ username →
      (p ∈ profileQueryset db requester username now ↔
        p ∈ db.posts ∧ p.author.username = username ∧
          dtLe p.pub_date now = true)) := by
  constructor
  · intro he
    subst he
    rw [profileQueryset, if_pos (by simp)]
    rw [mem_sortByPubDateDesc, List.mem_filter]
    simp [and_assoc]
  · intro hne
    rw [profileQueryset, if_neg (by simpa using hne)]
    rw [mem_sortByPubDateDesc, List.mem_filter]
    simp [and_assoc]

/-- Witness for `c5_profile_listing`: `alice` sees her own unpublished
draft in her profile listing. -/
theorem c5_profile_listing_witness :
    postDraft ∈ profileQueryset exDb "alice" "alice" exNow ↔
      postDraft ∈ exDb.posts ∧ postDraft.author.username = "alice" :=
  (c5_profile_listing exDb "alice" "alice" exNow postDraft).1 (by decide)

/-- C6 (confirmed): a post created through `PostCreateView` is saved with
`is_published = true` even when the submission carries
`is_published = false`: `form_valid` overwrites the flag after validation. -/
theorem c6_created_post_published (db : Database) (u : User)
    (form : PostFormData) (nid : Nat) :
    (postCreateView db (some u) { form with is_published := false } nid).2.posts
      = db.posts ++ [postCreateInstance u { form with is_published := false } nid] ∧
    (postCreateInstance u { form with is_published := false } nid).is_published
      = true ∧
    (postCreateInstance u form nid).is_published = true :=
  ⟨rfl, rfl, rfl⟩

/-- C7 (confirmed): an anonymous requester is never served a post detail
page: any post that fails the public-visibility check yields a 404 (the
anonymous user is never the author), and a post that passes it — published,
published category, past date — yields the login-required redirect. -/
theorem c7_anonymous_not_served (db : Database) (pk : Nat) (now : DateTime) :
    (∀ q comments, postDetailDispatch db none pk now
      ≠ DetailResult.served q comments) ∧
    (∀ post, findPost db pk = some post → publiclyVisible post now = true →
      postDetailDispatch db none pk now = DetailResult.loginRedirect) := by
  constructor
  · intro q comments
    rw [postDetailDispatch]
    cases findPost db pk with
    | none => simp
    | some post =>
      by_cases hv : publiclyVisible post now = false <;> simp [hv]
  · intro post h hv
    simp [postDetailDispatch, h, hv]

/-- Witness for `c7_anonymous_not_served`: the fixture's publicly visible
post redirects an anonymous requester to login. -/
theorem c7_anonymous_not_served_witness :
    postDetailDispatch exDb none 1 exNow = DetailResult.loginRedirect :=
  (c7_anonymous_not_served exDb 1 exNow).2 postVisible (by decide) (by decide)

/-- C8 (confirmed): the category page 404s exactly when no category in the
database is published with the requested slug — a missing slug and an
unpublished category alike — and any rendered page carries an existing
published category with that slug. -/
theorem c8_category_gate (db : Database) (slug : String) (now : DateTime)
    (pageParam : Option Nat) :
    (categoryPostsView db slug now pageParam = none ↔
      ∀ c ∈ db.categories, ¬(c.is_published = true ∧ c.slug = slug)) ∧
    (∀ posts cat, categoryPostsView db slug now pageParam = some (posts, cat) →
      cat ∈ db.categories ∧ cat.is_published = true ∧ cat.slug = slug) := by
  constructor
  · cases hf : db.categories.find? (fun c => c.is_published && c.slug == slug) with
    | none =>
      rw [categoryPostsView, hf]
      simp only [true_iff]
      intro c hc
      have := List.find?_eq_none.mp hf c hc
      simpa using this
    | some cat =>
      rw [categoryPostsView, hf]
      have hmem := List.mem_of_find?_eq_some hf
      have hpred := List.find?_some hf
      simp only [Bool.and_eq_true, beq_iff_eq] at hpred
      constructor
      · intro h
        exact absurd h (by simp)
      · intro hall
        exact absurd hpred (hall cat hmem)
  · intro posts cat h
    rw [categoryPostsView] at h
    cases hf : db.categories.find? (fun c => c.is_published && c.slug == slug) with
    | none => rw [hf] at h; exact absurd h (by simp)
    | some c =>
      rw [hf] at h
      injection h with h1
      injection h1 with h2 h3
      subst h3
      have hmem := List.mem_of_find?_eq_some hf
      have hpred := List.find?_some hf
      simp only [Bool.and_eq_true, beq_iff_eq] at hpred
      exact ⟨hmem, hpred.1, hpred.2⟩

/-- Witness for `c8_category_gate`: the fixture's rendered "tech" page
carries the published category, and the unpublished "life" slug 404s. -/
theorem c8_category_gate_witness :
    (catPublic ∈ exDb.categories ∧ catPublic.is_published = true ∧
      catPublic.slug = "tech") ∧
    (categoryPostsView exDb "life" exNow none = none ↔
      ∀ c ∈ exDb.categories, ¬(c.is_published = true ∧ c.slug = "life")) :=
  ⟨(c8_category_gate exDb "tech" exNow none).2
      (paginatorGetPage (categoryQueryset exDb "tech" exNow) 10 none) catPublic
      (by decide),
   (c8_category_gate exDb "life" exNow none).1⟩

/-- C9 (confirmed): every listing page — index, category, profile — is
paginated with page size 10, so no page ever holds more than 10 posts. -/
theorem c9_page_size (db : Database) (now : DateTime) (slug : String)
    (requester : Option User) (username : String) (pageParam : Option Nat) :
    (indexView db now pageParam).length ≤ 10 ∧
    (∀ posts cat, categoryPostsView db slug now pageParam = some (posts, cat) →
      posts.length ≤ 10) ∧
    (∀ posts, profileView db requester username now pageParam = some posts →
      posts.length ≤ 10) := by
  refine ⟨length_paginatorGetPage _ _ _, ?_, ?_⟩
  · intro posts cat h
    rw [categoryPostsView] at h
    cases hf : db.categories.find? (fun c => c.is_published && c.slug == slug) with
    | none => rw [hf] at h; exact absurd h (by simp)
    | some c =>
      rw [hf] at h
      injection h with h1
      injection h1 with h2 h3
      exact h2 ▸ length_paginatorGetPage _ _ _
  · intro posts h
    rw [profileView] at h
    cases hf : db.users.find? (fun usr => usr.username == username) with
    | none => rw [hf] at h; exact absurd h (by simp)
    | some usr =>
      rw [hf] at h
      exact length_listViewPaginate _ _ _ _ h

/-- Witness for `c9_page_size`: the fixture category page holds at most 10
posts. -/
theorem c9_page_size_witness :
    (paginatorGetPage (categoryQueryset exDb "tech" exNow) 10 none).length
      ≤ 10 :=
  (c9_page_size exDb exNow "tech" (some bob) "alice" none).2.1
    (paginatorGetPage (categoryQueryset exDb "tech" exNow) 10 none) catPublic
    (by decide)

/-- C10 (confirmed): the comment-edit and comment-delete endpoints fetch
their target by the `comment_id` URL parameter alone; for a comment
authored by the requester, the outcome is identical for any post `pk` in
the URL, and the operation updates or deletes exactly the comment with
that id. -/
theorem c10_comment_pk_ignored (db : Database) (u : User) (pk pk₂ cid : Nat)
    (form : CommentFormData) (c : Comment)
    (hc : findComment db cid = some c) (hu : c.author = u) :
    commentUpdateView db (some u) pk cid form
        = commentUpdateView db (some u) pk₂ cid form ∧
    commentDeleteView db (some u) pk cid
        = commentDeleteView db (some u) pk₂ cid ∧
    (commentUpdateView db (some u) pk cid form).2.comments
        = db.comments.map
            (fun x => if x.id == cid then { x with text := form.text } else x) ∧
    (commentDeleteView db (some u) pk cid).2.comments
        = db.comments.filter (fun x => !(x.id == cid)) := by
  subst hu
  simp [commentUpdateView, commentDeleteView, hc]

/-- Witness for `c10_comment_pk_ignored`: editing `bob`'s comment 1 through
the mismatched post pk 99 changes exactly that comment. -/
theorem c10_comment_pk_ignored_witness :
    commentUpdateView exDb (some bob) 1 1 exCForm
      = commentUpdateView exDb (some bob) 99 1 exCForm :=
  (c10_comment_pk_ignored exDb bob 1 99 1 exCForm exComment
    (by decide) (by decide)).1
